import Mathlib

/-!
# Verification of the glacierbento drainage-system core

A shallow embedding, over exact rationals, of the parts of the glacierbento
repository that the specification's claims are about:

* `StaticGrid` (src/glacierbento/utils/static_grid.py): the immutable mesh and
  its mapping operators (`sum_at_nodes`, `calc_grad_at_link`,
  `calc_flux_div_at_node`, `map_mean_of_link_nodes_to_link`).
* `MatrixAssembler` (src/glacierbento/utils/matrix_assembler.py).
* `DistributedDrainageSystem`
  (src/glacierbento/components/distributed_drainage_system.py): boundary
  classification, sheet-thickness evolution, linear-system assembly, the
  potential solve, and the `run_one_step` functional update.

Machine floats are modelled by `Rat` (the claims under scrutiny are structural,
not about rounding); the external iterative primitives (`lineax.linear_solve`,
`optimistix.root_find`) are modelled as explicit function parameters, and the
properties their results are assumed to have appear as hypotheses.

JAX indexing semantics are modelled faithfully: a negative index wraps around
the end of the array, and an out-of-range index is clamped into range.
-/

/-- JAX gather-index semantics: a negative index counts from the end of an
array of size `n`, and the result is clamped into `[0, n-1]`. -/
def jidx (n : Nat) (i : Int) : Nat :=
  (min (max (if i < 0 then i + n else i) 0) ((n : Int) - 1)).toNat

/-- Read a rational array at a `Nat` index, with `0` for an empty read. -/
def qget (a : Array Rat) (i : Nat) : Rat := a.getD i 0

/-- Read a rational array at a JAX-style `Int` index. -/
def jget (a : Array Rat) (i : Int) : Rat := qget a (jidx a.size i)

/-- Read an integer array (node/link/cell index table) at a `Nat` index. -/
def iget (a : Array Int) (i : Nat) : Int := a.getD i 0

/-- Read an integer array at a JAX-style `Int` index. -/
def jgetI (a : Array Int) (i : Int) : Int := iget a (jidx a.size i)

/-- Read one row of a two-dimensional integer table (`-1`-padded adjacency
rows such as `adjacent_nodes_at_node` or `links_at_node`). -/
def rowI (a : Array (Array Int)) (i : Nat) : Array Int := a.getD i #[]

/-- `x.at[i].add v` with JAX index semantics: the entry at the (wrapped,
clamped) index is incremented by `v`; an empty array is unchanged. -/
def arrAddAt (a : Array Rat) (i : Int) (v : Rat) : Array Rat :=
  let k := jidx a.size i
  a.setD k (qget a k + v)

/-- `jnp.sum` of an array of rationals. -/
def arrSum (a : Array Rat) : Rat := a.foldl (fun s x => s + x) 0

/-- Minimum of a list of rationals, `none` when the list is empty (the
embedding of `jnp.min` over the finitely many unmasked entries, with `none`
standing for the `jnp.inf` fill value of fully-masked rows). -/
def minList : List Rat → Option Rat
  | [] => none
  | x :: xs =>
    match minList xs with
    | none => some x
    | some m => some (min x m)

/-- `x ≤ o` where `o = none` stands for `+∞`. -/
def leOpt (x : Rat) (o : Option Rat) : Bool :=
  match o with
  | none => true
  | some m => x ≤ m

/-- The `StaticGrid` data (src/glacierbento/utils/static_grid.py, lines
43-92), restricted to the members that the claims under study touch.  All
tables are exactly the frozen-from-landlab arrays: index tables use `-1` as
the padding value. -/
structure SGrid where
  numberOfNodes : Nat
  numberOfLinks : Nat
  numberOfCells : Nat
  numberOfFaces : Nat
  lengthOfLink : Array Rat
  lengthOfFace : Array Rat
  cellAreaAtNode : Array Rat
  statusAtNode : Array Int
  statusAtLink : Array Int
  adjacentNodesAtNode : Array (Array Int)
  nodeAtLinkHead : Array Int
  nodeAtLinkTail : Array Int
  linksAtNode : Array (Array Int)
  linkDirsAtNode : Array (Array Int)
  cellAtNode : Array Int
  nodeAtCell : Array Int
  faceAtLink : Array Int
  deriving Repr, DecidableEq

/-- `StaticGrid.map_mean_of_link_nodes_to_link` (static_grid.py line 103):
`0.5 * (array[node_at_link_head] + array[node_at_link_tail])`. -/
def mapMeanOfLinkNodesToLink (g : SGrid) (a : Array Rat) : Array Rat :=
  Array.ofFn (n := g.numberOfLinks) fun l =>
    (1 / 2) * (jget a (iget g.nodeAtLinkHead l) + jget a (iget g.nodeAtLinkTail l))

/-- `StaticGrid.calc_grad_at_link` (static_grid.py line 191):
`(array[head] - array[tail]) / length_of_link`. -/
def calcGradAtLink (g : SGrid) (a : Array Rat) : Array Rat :=
  Array.ofFn (n := g.numberOfLinks) fun l =>
    (jget a (iget g.nodeAtLinkHead l) - jget a (iget g.nodeAtLinkTail l))
      / qget g.lengthOfLink l

/-- `StaticGrid.sum_at_nodes` (static_grid.py line 149): at each node, the
sum over the node's incident-link slots of `link_dirs * array[link]`, where
`-1`-padded slots are masked to `nan` by `mask_links_at_node_array` and then
skipped by `jnp.nansum` (a padded slot has direction `0`, and `0 * nan = nan`
is likewise skipped). -/
def sumAtNodes (g : SGrid) (a : Array Rat) : Array Rat :=
  Array.ofFn (n := g.numberOfNodes) fun i =>
    let links := rowI g.linksAtNode i
    let dirs := rowI g.linkDirsAtNode i
    arrSum (Array.ofFn (n := links.size) fun s =>
      if iget links s ≠ -1 then (iget dirs s : Rat) * jget a (iget links s)
      else 0)

/-- The `face_flux` line of `StaticGrid.calc_flux_div_at_node`
(static_grid.py line 200): `array * length_of_face[face_at_link]`. -/
def faceFluxArr (g : SGrid) (a : Array Rat) : Array Rat :=
  Array.ofFn (n := g.numberOfLinks) fun l =>
    qget a l * jget g.lengthOfFace (iget g.faceAtLink l)

/-- `StaticGrid.calc_flux_div_at_node` (static_grid.py line 198):
`face_flux = array * length_of_face[face_at_link]`, then
`where(cell_area_at_node != 0, -sum_at_nodes(face_flux) / cell_area_at_node, 0)`.
Note the negation in front of `sum_at_nodes`. -/
def calcFluxDivAtNode (g : SGrid) (a : Array Rat) : Array Rat :=
  Array.ofFn (n := g.numberOfNodes) fun i =>
    if qget g.cellAreaAtNode i ≠ 0 then
      -(qget (sumAtNodes g (faceFluxArr g a)) i) / qget g.cellAreaAtNode i
    else 0

/-- The discrete divergence exactly as the specification words it
(spec.md section 4.1): the signed sum of `flux * face_length` over the node's
incident links, with the signs taken from the stored link direction signs,
divided by the node's cell area — with no negation.  Written only to be
compared against `calcFluxDivAtNode`, the embedding of the source. -/
def calcFluxDivAtNodeSpecClaim (g : SGrid) (a : Array Rat) : Array Rat :=
  Array.ofFn (n := g.numberOfNodes) fun i =>
    if qget g.cellAreaAtNode i ≠ 0 then
      qget (sumAtNodes g (faceFluxArr g a)) i / qget g.cellAreaAtNode i
    else 0

/-- A `Field` (src/glacierbento/utils/core.py): a named value array with a
unit string and a grid-element location tag. -/
structure GBField where
  name : String
  value : Array Rat
  units : String
  location : String
  deriving Repr, DecidableEq

/-- The six node fields that `DistributedDrainageSystem` requires
(distributed_drainage_system.py lines 41-48). -/
structure DDSFields where
  iceThickness : GBField
  bedElevation : GBField
  slidingVelocity : GBField
  meltInput : GBField
  hydraulicPotential : GBField
  sheetFlowHeight : GBField
  deriving Repr, DecidableEq

/-- The parameter dictionary with its defaults
(distributed_drainage_system.py lines 49-60).  The three exponents are
integers in the source dictionary and are used as exponents, so they are
carried as naturals. -/
structure DDSParams where
  gravity : Rat := 981 / 100
  iceDensity : Rat := 917
  waterDensity : Rat := 1000
  cavitySpacing : Rat := 10
  bedBumpHeight : Rat := 1 / 2
  iceFlowN : Nat := 3
  iceFlowCoeff : Rat := 24 / 10 ^ 25
  sheetConductivity : Rat := 1 / 20
  flowExpA : Nat := 3
  flowExpB : Nat := 2
  deriving Repr, DecidableEq

/-- The state of a `DistributedDrainageSystem` instance: the frozen grid, the
field dictionary, the parameter dictionary, and the two arrays the component
computes in `__init__` (`link_between_nodes` and `boundary_tags`). -/
structure DDS where
  grid : SGrid
  fields : DDSFields
  params : DDSParams
  linkBetweenNodes : Array (Array Int)
  boundaryTags : Array Int
  deriving Repr, DecidableEq

/-- The base hydrostatic potential
`bed_elevation * water_density * gravity` used in `__init__` (lines 67-71),
`_assemble_row` (lines 156-160) and `_solve_for_potential` (lines 226-230). -/
def basePotential (g : SGrid) (p : DDSParams) (bed : Array Rat) : Array Rat :=
  Array.ofFn (n := g.numberOfNodes) fun i => qget bed i * p.waterDensity * p.gravity

/-- `DistributedDrainageSystem._set_inflow_outflow`
(distributed_drainage_system.py lines 73-91): mask the `-1`-padded adjacency
row, take the row minimum (`jnp.inf` when fully masked), then
`where(potential <= min_adj_potential, -1 * (status > 0), 1 * (status > 0))`.
`1` denotes inflow, `-1` denotes outflow, `0` a non-boundary node. -/
def setInflowOutflow (g : SGrid) (potential : Array Rat) : Array Int :=
  Array.ofFn (n := g.numberOfNodes) fun i =>
    let adj := (rowI g.adjacentNodesAtNode i).toList
    let minAdj := minList ((adj.filter (fun j => j ≠ -1)).map (jget potential))
    let b : Int := if iget g.statusAtNode i > 0 then 1 else 0
    if leOpt (qget potential i) minAdj then -1 * b else 1 * b

/-- The boundary classification exactly as the specification words it
(spec.md section 4.3 step 1): the minimum is taken over the *interior*
neighbors of the node only.  Written only to be compared against
`setInflowOutflow`, the embedding of the source, which takes the minimum over
all non-padding neighbors. -/
def setInflowOutflowSpecClaim (g : SGrid) (potential : Array Rat) : Array Int :=
  Array.ofFn (n := g.numberOfNodes) fun i =>
    let adj := (rowI g.adjacentNodesAtNode i).toList
    let interior := adj.filter (fun j => j ≠ -1 ∧ jgetI g.statusAtNode j = 0)
    let minAdj := minList (interior.map (jget potential))
    let b : Int := if iget g.statusAtNode i > 0 then 1 else 0
    if leOpt (qget potential i) minAdj then -1 * b else 1 * b

/-- `DistributedDrainageSystem.calc_effective_pressure` (lines 252-260):
`overburden - water_pressure` with
`overburden = ice_density * gravity * ice_thickness` and
`water_pressure = potential - water_density * gravity * bed_elevation`. -/
def calcEffectivePressure (dds : DDS) (potential : Array Rat) : Array Rat :=
  Array.ofFn (n := dds.grid.numberOfNodes) fun i =>
    let H := qget dds.fields.iceThickness.value i
    let b := qget dds.fields.bedElevation.value i
    dds.params.iceDensity * dds.params.gravity * H
      - (qget potential i - dds.params.waterDensity * dds.params.gravity * b)

/-- `DistributedDrainageSystem._calc_dhdt` (lines 93-116): cavity opening by
sliding over bed bumps (cut off once the sheet reaches the bump height) minus
creep closure, a Glen-law power of the effective pressure. -/
def calcDhdt (dds : DDS) (potential sheet : Array Rat) : Array Rat :=
  let N := calcEffectivePressure dds potential
  let p := dds.params
  Array.ofFn (n := dds.grid.numberOfNodes) fun i =>
    let ub := qget dds.fields.slidingVelocity.value i
    let h := qget sheet i
    let opening := |ub| / p.cavitySpacing
      * (if h ≥ p.bedBumpHeight then 0 else p.bedBumpHeight - h)
    let closure := (2 / (p.iceFlowN : Rat) ^ p.iceFlowN) * p.iceFlowCoeff
      * h * |qget N i| ^ (p.iceFlowN - 1) * qget N i
    opening - closure

/-- `DistributedDrainageSystem.calc_discharge` (lines 262-275):
`-k * h_at_links^a * |grad_phi|^b * grad_phi` on every link. -/
def calcDischarge (dds : DDS) (potential sheet : Array Rat) : Array Rat :=
  let p := dds.params
  let gradPhi := calcGradAtLink dds.grid potential
  let hAtLinks := mapMeanOfLinkNodesToLink dds.grid sheet
  Array.ofFn (n := dds.grid.numberOfLinks) fun l =>
    -p.sheetConductivity * qget hAtLinks l ^ p.flowExpA
      * |qget gradPhi l| ^ p.flowExpB * qget gradPhi l

/-- `DistributedDrainageSystem._get_coeffs_at_link` (lines 118-137): the flux
coefficient between a cell and a neighboring node `j`, zeroed on links whose
status is not `0` (inactive links). -/
def getCoeffsAtLink (dds : DDS) (cell : Nat) (j : Int)
    (potential sheet : Array Rat) : Rat :=
  let i := iget dds.grid.nodeAtCell cell
  let link := jgetI (rowI dds.linkBetweenNodes (jidx dds.linkBetweenNodes.size i)) j
  let linkLen := jget dds.grid.lengthOfLink link
  let faceLen := jget dds.grid.lengthOfFace (jgetI dds.grid.faceAtLink link)
  let sheetFlux := jget (calcDischarge dds potential sheet) link * faceLen / linkLen
  if jgetI dds.grid.statusAtLink link = 0 then sheetFlux else 0

/-- `DistributedDrainageSystem._assemble_row` (lines 139-192): one cell's
forcing addition and matrix row.  The forcing sums
`-coeff * base_potential[j]` over the adjacent nodes tagged `-1` (outflow);
the row scatters `-coeff` on the diagonal and `+coeff` at the neighbor's cell
when that neighbor has one. -/
def assembleRow (dds : DDS) (potential sheet : Array Rat) (cell : Nat) :
    Rat × Array Rat :=
  let g := dds.grid
  let i := iget g.nodeAtCell cell
  let adj := rowI g.adjacentNodesAtNode (jidx g.adjacentNodesAtNode.size i)
  let coeffs := Array.ofFn (n := adj.size) fun s =>
    if iget adj s ≠ -1 then getCoeffsAtLink dds cell (iget adj s) potential sheet
    else 0
  let base := basePotential g dds.params dds.fields.bedElevation.value
  let addedForcings := Array.ofFn (n := adj.size) fun s =>
    if jgetI dds.boundaryTags (iget adj s) = -1 ∧ iget adj s ≠ -1 then
      -(qget coeffs s) * jget base (iget adj s)
    else 0
  let forcing := arrSum addedForcings
  let emptyRow : Array Rat := Array.mkArray g.numberOfCells 0
  let row := (List.range adj.size).foldl (fun row s =>
    let j := iget adj s
    let jcell := jgetI g.cellAtNode j
    if jcell ≠ -1 then
      arrAddAt (arrAddAt row jcell (qget coeffs s)) cell (-(qget coeffs s))
    else
      arrAddAt row cell (-(qget coeffs s))) emptyRow
  (forcing, row)

/-- The forcing part of `_assemble_row` exactly as the specification words it
(spec.md section 4.3 steps 1 and 5, with the Dirichlet elimination of section
4.2): the `-coeff * base_potential[j]` contribution is collected from the
adjacent nodes classified as *inflow* (tag `1`).  Written only to be compared
against `assembleRow`, the embedding of the source, which collects it from the
nodes tagged `-1` (outflow). -/
def assembleRowForcingSpecClaim (dds : DDS) (potential sheet : Array Rat)
    (cell : Nat) : Rat :=
  let g := dds.grid
  let i := iget g.nodeAtCell cell
  let adj := rowI g.adjacentNodesAtNode (jidx g.adjacentNodesAtNode.size i)
  let coeffs := Array.ofFn (n := adj.size) fun s =>
    if iget adj s ≠ -1 then getCoeffsAtLink dds cell (iget adj s) potential sheet
    else 0
  let base := basePotential g dds.params dds.fields.bedElevation.value
  arrSum (Array.ofFn (n := adj.size) fun s =>
    if jgetI dds.boundaryTags (iget adj s) = 1 ∧ iget adj s ≠ -1 then
      -(qget coeffs s) * jget base (iget adj s)
    else 0)

/-- `DistributedDrainageSystem._build_forcing_vector` (lines 194-203):
`(melt_input - dhdt)[node_at_cell]`. -/
def buildForcingVector (dds : DDS) (potential sheet : Array Rat) : Array Rat :=
  let dhdt := calcDhdt dds potential sheet
  Array.ofFn (n := dds.grid.numberOfCells) fun c =>
    let i := iget dds.grid.nodeAtCell c
    jget dds.fields.meltInput.value i - jget dhdt i

/-- `DistributedDrainageSystem._assemble_linear_system` (lines 205-218): the
per-cell rows plus the base forcing vector. -/
def assembleLinearSystem (dds : DDS) (potential sheet : Array Rat) :
    Array Rat × Array (Array Rat) :=
  let rows := Array.ofFn (n := dds.grid.numberOfCells) fun c =>
    assembleRow dds potential sheet c
  let forcing := Array.ofFn (n := dds.grid.numberOfCells) fun c =>
    (rows.getD c (0, #[])).1 + qget (buildForcingVector dds potential sheet) c
  (forcing, Array.ofFn (n := dds.grid.numberOfCells) fun c => (rows.getD c (0, #[])).2)

/-- `DistributedDrainageSystem._solve_for_potential` (lines 220-236).  The
external `lineax.linear_solve` primitive is the `solver` parameter; its result
is scattered back to the nodes, pure-boundary nodes receiving the base
hydrostatic potential.  No check of any kind precedes the solve. -/
def solveForPotential (dds : DDS) (solver : Array (Array Rat) → Array Rat → Array Rat)
    (potential sheet : Array Rat) : Array Rat :=
  let bA := assembleLinearSystem dds potential sheet
  let solution := solver bA.2 bA.1
  let base := basePotential dds.grid dds.params dds.fields.bedElevation.value
  Array.ofFn (n := dds.grid.numberOfNodes) fun i =>
    if iget dds.grid.cellAtNode i ≠ -1 then jget solution (iget dds.grid.cellAtNode i)
    else qget base i

/-- The residual closure of `_update_sheet_flow_height` (line 242):
`h - sheet_flow_height - dt * _calc_dhdt(hydraulic_potential, h)`,
elementwise over the node array. -/
def ddsResidual (dds : DDS) (dt : Rat) (potential hOld : Array Rat)
    (h : Array Rat) : Array Rat :=
  Array.ofFn (n := dds.grid.numberOfNodes) fun i =>
    qget h i - qget hOld i - dt * qget (calcDhdt dds potential h) i

/-- The tail of `DistributedDrainageSystem._update_sheet_flow_height`
(lines 246-250), applied to the array `sol` returned by the external
`optimistix` Newton root-find: `where(boundary_tags == 0, sol, 0.0)`.  No
clamping of any other kind is applied. -/
def updateSheetFlowHeight (dds : DDS) (sol : Array Rat) : Array Rat :=
  Array.ofFn (n := dds.grid.numberOfNodes) fun i =>
    if iget dds.boundaryTags i = 0 then qget sol i else 0

/-- `DistributedDrainageSystem.run_one_step` (lines 277-291).  The external
root-find (`optimistix.Newton` inside `_update_sheet_flow_height`) and linear
solver (`lineax` inside `_solve_for_potential`) are the `rootFind` and
`solver` parameters.  The `eqx.tree_at` call replaces exactly the two leaves
`_fields['hydraulic_potential'].value` and `_fields['sheet_flow_height'].value`
and returns a new instance. -/
def runOneStep (dds : DDS)
    (solver : Array (Array Rat) → Array Rat → Array Rat)
    (rootFind : (Array Rat → Array Rat) → Array Rat → Array Rat)
    (dt : Rat) : DDS :=
  let phiOld := dds.fields.hydraulicPotential.value
  let hOld := dds.fields.sheetFlowHeight.value
  let sol := rootFind (ddsResidual dds dt phiOld hOld) hOld
  let updatedThickness := updateSheetFlowHeight dds sol
  let updatedPotential := solveForPotential dds solver phiOld updatedThickness
  { dds with
    fields := { dds.fields with
      hydraulicPotential := { dds.fields.hydraulicPotential with value := updatedPotential }
      sheetFlowHeight := { dds.fields.sheetFlowHeight with value := updatedThickness } } }

/-- Modelled from the spec: `StaticGrid.build_link_between_nodes_array` is
called by `DistributedDrainageSystem.__init__` (line 65) but is defined
nowhere in the repository.  The specification describes the table it should
produce through its data model and testable property
`link_between(i, j) == link_between(j, i)` (spec.md sections 3 and 8): the
entry at `(i, j)` is the index of the link joining nodes `i` and `j`,
independent of orientation, and `-1` when no such link exists. -/
def buildLinkBetweenNodesArray (g : SGrid) : Array (Array Int) :=
  Array.ofFn (n := g.numberOfNodes) fun i =>
    Array.ofFn (n := g.numberOfNodes) fun j =>
      match (List.range g.numberOfLinks).find? (fun l =>
        (iget g.nodeAtLinkTail l = i ∧ iget g.nodeAtLinkHead l = j)
        ∨ (iget g.nodeAtLinkTail l = j ∧ iget g.nodeAtLinkHead l = i)) with
      | some l => (l : Int)
      | none => -1

/-- The state `DistributedDrainageSystem.__init__` (lines 62-71) would
produce: `link_between_nodes` from the grid (modelled above, since the grid
method is missing) and `boundary_tags` from `_set_inflow_outflow` applied to
the base hydrostatic potential of the bed elevation. -/
def ddsInitModel (g : SGrid) (fields : DDSFields) (params : DDSParams) : DDS :=
  { grid := g
    fields := fields
    params := params
    linkBetweenNodes := buildLinkBetweenNodesArray g
    boundaryTags := setInflowOutflow g (basePotential g params fields.bedElevation.value) }

/-- The reachable solver states: an initial state produced by construction,
or the result of any `run_one_step` call on a reachable state, for any
behavior of the two external numerical primitives. -/
inductive DDSReachable : DDS → Prop
  | init (g : SGrid) (fields : DDSFields) (params : DDSParams) :
      DDSReachable (ddsInitModel g fields params)
  | step (s : DDS) (solver : Array (Array Rat) → Array Rat → Array Rat)
      (rootFind : (Array Rat → Array Rat) → Array Rat → Array Rat) (dt : Rat) :
      DDSReachable s → DDSReachable (runOneStep s solver rootFind dt)

/-- The attribute names that a `StaticGrid` instance resolves: its dataclass
fields (static_grid.py lines 51-92) and its methods (lines 94-239).
Transcribed member by member from the class body; Python attribute lookup on
any other name raises `AttributeError`. -/
def staticGridMembers : List String :=
  [ "number_of_nodes", "number_of_links", "number_of_patches",
    "number_of_corners", "number_of_faces", "number_of_cells",
    "node_x", "node_y", "midpoint_of_link", "length_of_link", "angle_of_link",
    "xy_of_patch", "area_of_patch", "x_of_corner", "y_of_corner",
    "length_of_face", "cell_area_at_node",
    "status_at_node", "core_nodes", "boundary_nodes", "status_at_link",
    "active_links",
    "adjacent_nodes_at_node", "node_at_link_head", "node_at_link_tail",
    "links_at_node", "link_dirs_at_node", "patches_at_node", "nodes_at_patch",
    "cell_at_node", "node_at_cell", "links_at_patch", "patches_at_link",
    "face_at_link", "link_at_face", "corners_at_face",
    "mask_links_at_node_array", "map_mean_of_links_to_node",
    "map_mean_of_link_nodes_to_link", "map_vectors_to_links",
    "resolve_values_on_links", "map_value_at_max_node_to_link",
    "map_mean_of_patch_nodes_to_patch", "sum_at_nodes",
    "calc_unit_normal_at_patch", "calc_grad_at_patch", "calc_grad_at_link",
    "calc_flux_div_at_node", "calc_gradient_vector_at_node" ]

/-- The errors `DistributedDrainageSystem.__init__` can surface: a
`ValueError` from the `Component` base-class field-contract checks
(component.py lines 79-83) or an `AttributeError` from resolving a name the
grid object does not define. -/
inductive DDSInitError where
  | missingField (name : String)
  | wrongLocation (name : String)
  | attributeError (name : String)
  deriving Repr, DecidableEq

/-- The required-field contract of `DistributedDrainageSystem`
(distributed_drainage_system.py lines 41-48, checked by component.py lines
79-83): each of the six required fields is present — here, carried by the
`DDSFields` record — and located on grid nodes. -/
def fieldsSatisfyContract (fields : DDSFields) : Prop :=
  fields.iceThickness.location = "node"
  ∧ fields.bedElevation.location = "node"
  ∧ fields.slidingVelocity.location = "node"
  ∧ fields.meltInput.location = "node"
  ∧ fields.hydraulicPotential.location = "node"
  ∧ fields.sheetFlowHeight.location = "node"

instance (fields : DDSFields) : Decidable (fieldsSatisfyContract fields) := by
  unfold fieldsSatisfyContract; infer_instance

/-- `DistributedDrainageSystem.__init__` (lines 36-71) as it executes: the
`Component.__init__` location checks run first (component.py lines 64-87),
then line 65 resolves `build_link_between_nodes_array` on the grid object —
against `staticGridMembers`, the transcription of what `StaticGrid` actually
defines — and only if that resolution succeeded would the construction
complete with the tags of `_set_inflow_outflow`. -/
def ddsInitChecked (g : SGrid) (fields : DDSFields) (params : DDSParams) :
    Except DDSInitError DDS :=
  if fields.iceThickness.location ≠ "node" then
    .error (.wrongLocation "ice_thickness")
  else if fields.bedElevation.location ≠ "node" then
    .error (.wrongLocation "bed_elevation")
  else if fields.slidingVelocity.location ≠ "node" then
    .error (.wrongLocation "sliding_velocity")
  else if fields.meltInput.location ≠ "node" then
    .error (.wrongLocation "melt_input")
  else if fields.hydraulicPotential.location ≠ "node" then
    .error (.wrongLocation "hydraulic_potential")
  else if fields.sheetFlowHeight.location ≠ "node" then
    .error (.wrongLocation "sheet_flow_height")
  else if staticGridMembers.contains "build_link_between_nodes_array" then
    .ok (ddsInitModel g fields params)
  else
    .error (.attributeError "build_link_between_nodes_array")

/-- The `MatrixAssembler` data (src/glacierbento/utils/matrix_assembler.py,
lines 28-41): flux coefficients on faces, base forcing on cells, fixed
boundary values on nodes, and the fixed-value flag array (a boolean array in
the source, compared against `1`; carried as `0`/`1` integers). -/
structure MAssembler where
  grid : SGrid
  coeffs : Array Rat
  forcing : Array Rat
  boundaryValues : Array Rat
  isFixedValue : Array Int
  deriving Repr, DecidableEq

/-- `MatrixAssembler.get_adjacent_node` (lines 43-49): the endpoint of `link`
other than the cell's own node. -/
def getAdjacentNode (m : MAssembler) (cell : Nat) (link : Int) : Int :=
  if jgetI m.grid.nodeAtLinkHead link = iget m.grid.nodeAtCell cell then
    jgetI m.grid.nodeAtLinkTail link
  else
    jgetI m.grid.nodeAtLinkHead link

/-- `MatrixAssembler.add_dirichlet` (lines 51-58): `-coeff` on the diagonal
and `-coeff * boundary_values[adj_node]` moved into the forcing. -/
def addDirichlet (m : MAssembler) (cell : Nat) (link : Int)
    (forcing row : Array Rat) : Array Rat × Array Rat :=
  let adjNode := getAdjacentNode m cell link
  let face := jgetI m.grid.faceAtLink link
  let row' := arrAddAt row cell (-(jget m.coeffs face))
  let forcing' := arrAddAt forcing cell
    (-(jget m.coeffs face) * jget m.boundaryValues adjNode)
  (forcing', row')

/-- `MatrixAssembler.add_interior` (lines 60-68): `-coeff` on the diagonal
and `+coeff` in the adjacent cell's column. -/
def addInterior (m : MAssembler) (cell : Nat) (link : Int)
    (forcing row : Array Rat) : Array Rat × Array Rat :=
  let adjNode := getAdjacentNode m cell link
  let adjCell := jgetI m.grid.cellAtNode adjNode
  let face := jgetI m.grid.faceAtLink link
  let row' := arrAddAt (arrAddAt row cell (-(jget m.coeffs face))) adjCell
    (jget m.coeffs face)
  (forcing, row')

/-- `MatrixAssembler.add_valid` (lines 70-84): dispatch on the status of the
adjacent node, then on its fixed-value flag; an unflagged boundary neighbor
leaves forcing and row unchanged. -/
def addValid (m : MAssembler) (cell : Nat) (link : Int)
    (forcing row : Array Rat) : Array Rat × Array Rat :=
  if jgetI m.grid.statusAtNode (getAdjacentNode m cell link) = 0 then
    addInterior m cell link forcing row
  else if jgetI m.isFixedValue (getAdjacentNode m cell link) = 1 then
    addDirichlet m cell link forcing row
  else
    (forcing, row)

/-- The per-link step of `MatrixAssembler.assemble_row` (lines 90-97): a `-1`
padding slot is skipped, every other link is dispatched to `add_valid`. -/
def assembleRowStep (m : MAssembler) (cell : Nat) (fr : Array Rat × Array Rat)
    (link : Int) : Array Rat × Array Rat :=
  if link = -1 then fr else addValid m cell link fr.1 fr.2

/-- `MatrixAssembler.assemble_row` (lines 86-99): fold the per-link step over
the cell's node's `-1`-padded incident-link row, starting from a zero row. -/
def maAssembleRow (m : MAssembler) (forcing : Array Rat) (cell : Nat) :
    Array Rat × Array Rat :=
  let node := iget m.grid.nodeAtCell cell
  let links := rowI m.grid.linksAtNode (jidx m.grid.linksAtNode.size node)
  links.foldl (assembleRowStep m cell)
    (forcing, Array.mkArray m.grid.numberOfCells 0)

/-- `MatrixAssembler.assemble_matrix` (lines 101-109): scan `assemble_row`
over all cells, threading the forcing vector and stacking the rows. -/
def maAssembleMatrix (m : MAssembler) : Array Rat × Array (Array Rat) :=
  (List.range m.grid.numberOfCells).foldl
    (fun acc cell =>
      let fr := maAssembleRow m acc.1 cell
      (fr.1, acc.2.push fr.2))
    (m.forcing, #[])

/-- A frozen 3-by-3 raster grid with unit spacing (the shape produced by
`freeze_grid(RasterModelGrid((3, 3)))`): nine nodes, twelve links, one
interior node (node 4, the single cell), four faces crossing the four active
links `3, 5, 6, 8`.  Nodes are numbered row-major from the bottom-left;
incident-element rows are in landlab's east-north-west-south slot order with
`-1` padding; link directions are `1` into the node and `-1` out of it. -/
def g33 : SGrid :=
  { numberOfNodes := 9
    numberOfLinks := 12
    numberOfCells := 1
    numberOfFaces := 4
    lengthOfLink := Array.mkArray 12 1
    lengthOfFace := Array.mkArray 4 1
    cellAreaAtNode := #[0, 0, 0, 0, 1, 0, 0, 0, 0]
    statusAtNode := #[1, 1, 1, 1, 0, 1, 1, 1, 1]
    statusAtLink := #[4, 4, 4, 0, 4, 0, 0, 4, 0, 4, 4, 4]
    adjacentNodesAtNode := #[
      #[1, 3, -1, -1], #[2, 4, 0, -1], #[-1, 5, 1, -1],
      #[4, 6, -1, 0], #[5, 7, 3, 1], #[-1, 8, 4, 2],
      #[7, -1, -1, 3], #[8, -1, 6, 4], #[-1, -1, 7, 5]]
    nodeAtLinkHead := #[1, 2, 3, 4, 5, 4, 5, 6, 7, 8, 7, 8]
    nodeAtLinkTail := #[0, 1, 0, 1, 2, 3, 4, 3, 4, 5, 6, 7]
    linksAtNode := #[
      #[0, 2, -1, -1], #[1, 3, 0, -1], #[-1, 4, 1, -1],
      #[5, 7, -1, 2], #[6, 8, 5, 3], #[-1, 9, 6, 4],
      #[10, -1, -1, 7], #[11, -1, 10, 8], #[-1, -1, 11, 9]]
    linkDirsAtNode := #[
      #[-1, -1, 0, 0], #[-1, -1, 1, 0], #[0, -1, 1, 0],
      #[-1, -1, 0, 1], #[-1, -1, 1, 1], #[0, -1, 1, 1],
      #[-1, 0, 0, 1], #[-1, 0, 1, 1], #[0, 0, 1, 1]]
    cellAtNode := #[-1, -1, -1, -1, 0, -1, -1, -1, -1]
    nodeAtCell := #[4]
    faceAtLink := #[-1, -1, -1, 0, -1, 1, 2, -1, 3, -1, -1, -1] }

/-- A frozen 3-by-4 raster grid with unit spacing: twelve nodes, seventeen
links, two interior nodes (5 and 6, cells 0 and 1), seven faces crossing the
active links `4, 5, 7, 8, 9, 11, 12`.  Same conventions as `g33`. -/
def g34 : SGrid :=
  { numberOfNodes := 12
    numberOfLinks := 17
    numberOfCells := 2
    numberOfFaces := 7
    lengthOfLink := Array.mkArray 17 1
    lengthOfFace := Array.mkArray 7 1
    cellAreaAtNode := #[0, 0, 0, 0, 0, 1, 1, 0, 0, 0, 0, 0]
    statusAtNode := #[1, 1, 1, 1, 1, 0, 0, 1, 1, 1, 1, 1]
    statusAtLink := #[4, 4, 4, 4, 0, 0, 4, 0, 0, 0, 4, 0, 0, 4, 4, 4, 4]
    adjacentNodesAtNode := #[
      #[1, 4, -1, -1], #[2, 5, 0, -1], #[3, 6, 1, -1], #[-1, 7, 2, -1],
      #[5, 8, -1, 0], #[6, 9, 4, 1], #[7, 10, 5, 2], #[-1, 11, 6, 3],
      #[9, -1, -1, 4], #[10, -1, 8, 5], #[11, -1, 9, 6], #[-1, -1, 10, 7]]
    nodeAtLinkHead := #[1, 2, 3, 4, 5, 6, 7, 5, 6, 7, 8, 9, 10, 11, 9, 10, 11]
    nodeAtLinkTail := #[0, 1, 2, 0, 1, 2, 3, 4, 5, 6, 4, 5, 6, 7, 8, 9, 10]
    linksAtNode := #[
      #[0, 3, -1, -1], #[1, 4, 0, -1], #[2, 5, 1, -1], #[-1, 6, 2, -1],
      #[7, 10, -1, 3], #[8, 11, 7, 4], #[9, 12, 8, 5], #[-1, 13, 9, 6],
      #[14, -1, -1, 10], #[15, -1, 14, 11], #[16, -1, 15, 12], #[-1, -1, 16, 13]]
    linkDirsAtNode := #[
      #[-1, -1, 0, 0], #[-1, -1, 1, 0], #[-1, -1, 1, 0], #[0, -1, 1, 0],
      #[-1, -1, 0, 1], #[-1, -1, 1, 1], #[-1, -1, 1, 1], #[0, -1, 1, 1],
      #[-1, 0, 0, 1], #[-1, 0, 1, 1], #[-1, 0, 1, 1], #[0, 0, 1, 1]]
    cellAtNode := #[-1, -1, -1, -1, -1, 0, 1, -1, -1, -1, -1, -1]
    nodeAtCell := #[5, 6]
    faceAtLink := #[-1, -1, -1, -1, 0, 1, -1, 2, 3, 4, -1, 5, 6, -1, -1, -1, -1] }

/-- A node field with empty units, as `Component.__init__` wraps raw
arrays (component.py lines 70-77). -/
def nodeField (name : String) (value : Array Rat) : GBField :=
  { name := name, value := value, units := "", location := "node" }

/-- Assemble the six required node fields from raw arrays. -/
def mkFields (ice bed slide melt phi sheet : Array Rat) : DDSFields :=
  { iceThickness := nodeField "ice_thickness" ice
    bedElevation := nodeField "bed_elevation" bed
    slidingVelocity := nodeField "sliding_velocity" slide
    meltInput := nodeField "melt_input" melt
    hydraulicPotential := nodeField "hydraulic_potential" phi
    sheetFlowHeight := nodeField "sheet_flow_height" sheet }

/-- Zero node array on the 3-by-3 grid. -/
def z9 : Array Rat := Array.mkArray 9 0

/-- Unit node array on the 3-by-3 grid. -/
def ones9 : Array Rat := Array.mkArray 9 1

/-- Configuration for the boundary-classification counterexample: a potential
field on `g33` whose boundary node 1 lies above its interior neighbor's
potential but below a boundary neighbor's potential. -/
def phiC3 : Array Rat := #[1, 5, 100, 100, 10, 100, 100, 100, 100]

/-- Drainage-system state for the forcing counterexample: a bed whose
hydrostatic potential tags node 1 (and nodes 5, 7, 8) as outflow and
nodes 0, 2, 3 as inflow. -/
def c2state : DDS :=
  ddsInitModel g33
    (mkFields z9 #[2, 1, 2, 3, 2, 2, 2, 2, 2] z9 z9
      #[0, 0, 0, 1, 2, 3, 0, 0, 0] ones9)
    {}

/-- The potential argument passed to `_assemble_row` in the forcing
counterexample. -/
def phiC2 : Array Rat := #[0, 0, 0, 1, 2, 3, 0, 0, 0]

/-- Drainage-system state for the `run_one_step` tag-recomputation
counterexample: a flat bed (all boundary nodes tagged outflow at
construction) but a stored hydraulic-potential field that would tag node 1
as inflow if the classification were recomputed from it. -/
def c4state : DDS :=
  ddsInitModel g33 (mkFields z9 z9 z9 z9 #[0, 5, 0, 0, 0, 0, 0, 0, 0] z9) {}

/-- Drainage-system state for the sheet-thickness counterexample: zero ice
thickness, flat zero bed, zero sliding, unit initial sheet thickness, and a
hydraulic potential of `10^9` at the single interior node, which makes the
effective pressure there `-10^9` and the per-node residual linear with a
negative root. -/
def c6state : DDS :=
  ddsInitModel g33
    (mkFields z9 z9 z9 z9 #[0, 0, 0, 0, 10 ^ 9, 0, 0, 0, 0] ones9) {}

/-- The exact root of the sheet-thickness residual of `c6state` at `dt = 1`:
`1` at every node where the effective pressure vanishes, and
`-9/1591 < 0` at the interior node 4. -/
def solC6 : Array Rat := #[1, 1, 1, 1, -9 / 1591, 1, 1, 1, 1]

/-- Drainage-system state for the singular-system counterexample: all fields
zero, so every flux coefficient vanishes and the assembled one-by-one matrix
is the zero matrix, while every boundary node is tagged `-1` (no-flux /
outflow). -/
def c7state : DDS :=
  ddsInitModel g33 (mkFields z9 z9 z9 z9 z9 z9) {}

/-- A link flux on `g33` that is nonzero only on link 3, the active link
below the interior node. -/
def fluxC8 : Array Rat := #[0, 0, 0, 1, 0, 0, 0, 0, 0, 0, 0, 0]

lemma getD_pos {α : Type} (a : Array α) (i : Nat) (d : α) (h : i < a.size) :
    a.getD i d = a[i] := by
  simp [Array.getD, h]

lemma getD_neg {α : Type} (a : Array α) (i : Nat) (d : α) (h : ¬ i < a.size) :
    a.getD i d = d := by
  simp [Array.getD, h]

lemma getD_ofFn {α : Type} {n : Nat} (f : Fin n → α) (d :α) (i : Nat)
    (h : i < n) : (Array.ofFn f).getD i d = f ⟨i, h⟩ := by
  have hs : i < (Array.ofFn f).size := by simpa [Array.size_ofFn] using h
  simp [Array.getD, hs, Array.getElem_ofFn, h]

lemma qget_ofFn {n : Nat} (f : Fin n → Rat) (i : Nat) (h : i < n) :
    qget (Array.ofFn f) i = f ⟨i, h⟩ :=
  getD_ofFn f 0 i h

lemma iget_ofFn {n : Nat} (f : Fin n → Int) (i : Nat) (h : i < n) :
    iget (Array.ofFn f) i = f ⟨i, h⟩ :=
  getD_ofFn f 0 i h

lemma jidx_coe (n k : Nat) (h : k < n) : jidx n (k : Int) = k := by
  unfold jidx
  omega

lemma jidx_lt (n : Nat) (i : Int) (h : n ≠ 0) : jidx n i < n := by
  unfold jidx
  omega

lemma size_arrAddAt (a : Array Rat) (i : Int) (v : Rat) :
    (arrAddAt a i v).size = a.size := by
  simp [arrAddAt, Array.size_setD]

lemma arrAddAt_eq_set (a : Array Rat) (i : Int) (v : Rat) (h0 : a.size ≠ 0) :
    arrAddAt a i v
      = a.set ⟨jidx a.size i, jidx_lt a.size i h0⟩ (qget a (jidx a.size i) + v) := by
  unfold arrAddAt
  rw [Array.setD, dif_pos (jidx_lt a.size i h0)]

lemma qget_arrAddAt (a : Array Rat) (i : Int) (v : Rat) (k : Nat) :
    qget (arrAddAt a i v) k =
      if a.size ≠ 0 ∧ jidx a.size i = k then qget a k + v else qget a k := by
  by_cases h0 : a.size = 0
  · have hki : ¬ jidx a.size i < a.size := by omega
    simp [arrAddAt, Array.setD, hki, h0]
  · rw [arrAddAt_eq_set a i v h0]
    by_cases hk : k < a.size
    · have hk' : k < (a.set ⟨jidx a.size i, jidx_lt a.size i h0⟩
          (qget a (jidx a.size i) + v)).size := by
        simpa [Array.size_set] using hk
      rw [qget, getD_pos _ _ _ hk', Array.getElem_set]
      by_cases he : jidx a.size i = k
      · subst he
        simp [h0, qget, getD_pos _ _ _ hk]
      · have hcond : ¬ (a.size ≠ 0 ∧ jidx a.size i = k) := by tauto
        rw [if_neg he, if_neg hcond]
        exact (getD_pos a k 0 hk).symm
    · have hk' : ¬ k < (a.set ⟨jidx a.size i, jidx_lt a.size i h0⟩
          (qget a (jidx a.size i) + v)).size := by
        simpa [Array.size_set] using hk
      have hcond : ¬ (a.size ≠ 0 ∧ jidx a.size i = k) := by
        have := jidx_lt a.size i h0
        omega
      rw [qget, getD_neg _ _ _ hk', if_neg hcond, qget, getD_neg _ _ _ hk]

lemma foldl_add_eq (l : List Rat) : ∀ a : Rat,
    l.foldl (fun s x => s + x) a = a + l.sum := by
  induction l with
  | nil => intro a; simp
  | cons x xs ih =>
    intro a
    simp only [List.foldl_cons, List.sum_cons, ih]
    ring

lemma arrSum_ofFn {n : Nat} (f : Fin n → Rat) :
    arrSum (Array.ofFn f) = ∑ i : Fin n, f i := by
  unfold arrSum
  rw [Array.foldl_eq_foldl_toList, Array.toList_ofFn, foldl_add_eq, List.sum_ofFn]
  ring

lemma minList_eq_none (l : List Rat) : minList l = none ↔ l = [] := by
  cases l with
  | nil => simp [minList]
  | cons x xs =>
    simp only [minList]
    cases h : minList xs <;> simp

lemma leOpt_minList (x : Rat) (l : List Rat) :
    leOpt x (minList l) = true ↔ ∀ y ∈ l, x ≤ y := by
  induction l with
  | nil => simp [minList, leOpt]
  | cons z zs ih =>
    cases h : minList zs with
    | none =>
      have hz : zs = [] := (minList_eq_none zs).mp h
      subst hz
      simp [minList, leOpt, decide_eq_true_iff]
    | some m =>
      rw [h] at ih
      simp only [minList, h, leOpt, decide_eq_true_iff] at ih ⊢
      constructor
      · intro hle
        have h1 : x ≤ z := le_trans hle (min_le_left z m)
        have h2 : x ≤ m := le_trans hle (min_le_right z m)
        intro y hy
        rcases List.mem_cons.mp hy with rfl | hy
        · exact h1
        · exact ih.mp h2 y hy
      · intro hall
        refine le_min (hall z (List.mem_cons_self z zs)) (ih.mpr ?_)
        intro y hy
        exact hall y (List.mem_cons_of_mem z hy)

/-- A minimal two-node grid carrying only what `calc_effective_pressure`
reads; used to instantiate the identity on the specification's own example
arrays. -/
def g2min : SGrid :=
  { numberOfNodes := 2, numberOfLinks := 0, numberOfCells := 0, numberOfFaces := 0
    lengthOfLink := #[], lengthOfFace := #[], cellAreaAtNode := #[0, 0]
    statusAtNode := #[1, 1], statusAtLink := #[]
    adjacentNodesAtNode := #[#[-1], #[-1]]
    nodeAtLinkHead := #[], nodeAtLinkTail := #[]
    linksAtNode := #[#[-1], #[-1]], linkDirsAtNode := #[#[0], #[0]]
    cellAtNode := #[-1, -1], nodeAtCell := #[], faceAtLink := #[] }

/-- State for the effective-pressure witness: `ice_thickness = [10, 20]`,
`bed_elevation = [0, 0]`, `potential = [8000, 16000]`, default parameters. -/
def c10state : DDS :=
  { grid := g2min
    fields := mkFields #[10, 20] #[0, 0] #[0, 0] #[0, 0] #[8000, 16000] #[0, 0]
    params := {}
    linkBetweenNodes := #[]
    boundaryTags := #[1, 1] }

/-- C10: for arbitrary input arrays of ice thickness, bed elevation, and
hydraulic potential, `calc_effective_pressure` returns exactly
`ice_overburden - (potential - water_density * gravity * bed_elevation)` with
`ice_overburden = ice_density * gravity * ice_thickness`, entry by entry,
with no solve involved. -/
theorem calcEffectivePressure_identity (dds : DDS) (phi : Array Rat) (i : Nat)
    (hi : i < dds.grid.numberOfNodes) :
    qget (calcEffectivePressure dds phi) i =
      dds.params.iceDensity * dds.params.gravity
          * qget dds.fields.iceThickness.value i
        - (qget phi i
            - dds.params.waterDensity * dds.params.gravity
                * qget dds.fields.bedElevation.value i) := by
  unfold calcEffectivePressure
  rw [qget_ofFn _ i hi]

/-- Witness for `calcEffectivePressure_identity` at the specification's
example arrays: `917 * 9.81 * 10 - (8000 - 0) = 81957.7`. -/
theorem calcEffectivePressure_identity_witness :
    qget (calcEffectivePressure c10state #[8000, 16000]) 0 = 819577 / 10 := by
  rw [calcEffectivePressure_identity c10state #[8000, 16000] 0 (by decide)]
  with_unfolding_all rfl

/-- C9: `run_one_step` returns a new instance in which only the
`hydraulic_potential` and `sheet_flow_height` field values are replaced; the
grid, the parameters, the boundary tags, the link table, the four other
fields, and the names, units and locations of the two updated fields are all
unchanged.  The original instance is a value and is not mutated: the result
is a fresh record. -/
theorem runOneStep_frame (dds : DDS)
    (solver : Array (Array Rat) → Array Rat → Array Rat)
    (rootFind : (Array Rat → Array Rat) → Array Rat → Array Rat) (dt : Rat) :
    (runOneStep dds solver rootFind dt).grid = dds.grid
    ∧ (runOneStep dds solver rootFind dt).params = dds.params
    ∧ (runOneStep dds solver rootFind dt).boundaryTags = dds.boundaryTags
    ∧ (runOneStep dds solver rootFind dt).linkBetweenNodes = dds.linkBetweenNodes
    ∧ (runOneStep dds solver rootFind dt).fields.iceThickness
        = dds.fields.iceThickness
    ∧ (runOneStep dds solver rootFind dt).fields.bedElevation
        = dds.fields.bedElevation
    ∧ (runOneStep dds solver rootFind dt).fields.slidingVelocity
        = dds.fields.slidingVelocity
    ∧ (runOneStep dds solver rootFind dt).fields.meltInput = dds.fields.meltInput
    ∧ (runOneStep dds solver rootFind dt).fields.hydraulicPotential.name
        = dds.fields.hydraulicPotential.name
    ∧ (runOneStep dds solver rootFind dt).fields.hydraulicPotential.units
        = dds.fields.hydraulicPotential.units
    ∧ (runOneStep dds solver rootFind dt).fields.hydraulicPotential.location
        = dds.fields.hydraulicPotential.location
    ∧ (runOneStep dds solver rootFind dt).fields.sheetFlowHeight.name
        = dds.fields.sheetFlowHeight.name
    ∧ (runOneStep dds solver rootFind dt).fields.sheetFlowHeight.units
        = dds.fields.sheetFlowHeight.units
    ∧ (runOneStep dds solver rootFind dt).fields.sheetFlowHeight.location
        = dds.fields.sheetFlowHeight.location
    ∧ (runOneStep dds solver rootFind dt).fields.sheetFlowHeight.value
        = updateSheetFlowHeight dds
            (rootFind
              (ddsResidual dds dt dds.fields.hydraulicPotential.value
                dds.fields.sheetFlowHeight.value)
              dds.fields.sheetFlowHeight.value)
    ∧ (runOneStep dds solver rootFind dt).fields.hydraulicPotential.value
        = solveForPotential dds solver dds.fields.hydraulicPotential.value
            (updateSheetFlowHeight dds
              (rootFind
                (ddsResidual dds dt dds.fields.hydraulicPotential.value
                  dds.fields.sheetFlowHeight.value)
                dds.fields.sheetFlowHeight.value)) :=
  ⟨rfl, rfl, rfl, rfl, rfl, rfl, rfl, rfl, rfl, rfl, rfl, rfl, rfl, rfl, rfl, rfl⟩

/-- C7 (amended): `_solve_for_potential` performs no singularity or
configuration check of any kind: it unconditionally hands the assembled
system to the external linear solver and scatters whatever the solver
returns back to the nodes, pure-boundary nodes receiving the base
hydrostatic potential. -/
theorem solveForPotential_unconditional_solve (dds : DDS)
    (solver : Array (Array Rat) → Array Rat → Array Rat)
    (phi sheet : Array Rat) :
    solveForPotential dds solver phi sheet =
      Array.ofFn (n := dds.grid.numberOfNodes) fun i =>
        if iget dds.grid.cellAtNode i ≠ -1 then
          jget
            (solver (assembleLinearSystem dds phi sheet).2
              (assembleLinearSystem dds phi sheet).1)
            (iget dds.grid.cellAtNode i)
        else
          qget (basePotential dds.grid dds.params dds.fields.bedElevation.value)
            i :=
  rfl

/-- C7 counterexample: on `c7state` every boundary node is classified
no-flux (tag `-1`) and the assembled one-by-one matrix is the zero matrix —
the singular, anchor-free configuration of the claim — yet no error is
reported before the solve: the external solver is invoked and its return
value reaches the output, as two solvers returning different values produce
different potentials. -/
theorem solveForPotential_no_singularity_check_cex :
    c7state.boundaryTags = #[-1, -1, -1, -1, 0, -1, -1, -1, -1]
    ∧ (assembleLinearSystem c7state z9 z9).2 = #[#[0]]
    ∧ solveForPotential c7state (fun _ _ => #[0]) z9 z9
        ≠ solveForPotential c7state (fun _ _ => #[1]) z9 z9 :=
  of_decide_eq_true (by with_unfolding_all rfl)

/-- C1: for every grid and every field dictionary satisfying the
required-field contract, constructing a `DistributedDrainageSystem` raises
`AttributeError` and never returns an instance, because `__init__` resolves
`build_link_between_nodes_array` on the grid and `StaticGrid` defines no
member of that name. -/
theorem ddsInit_attributeError (g : SGrid) (fields : DDSFields)
    (params : DDSParams) (hc : fieldsSatisfyContract fields) :
    ddsInitChecked g fields params
      = .error (.attributeError "build_link_between_nodes_array") := by
  obtain ⟨h1, h2, h3, h4, h5, h6⟩ := hc
  unfold ddsInitChecked
  rw [if_neg (by simp [h1]), if_neg (by simp [h2]), if_neg (by simp [h3]),
    if_neg (by simp [h4]), if_neg (by simp [h5]), if_neg (by simp [h6]),
    if_neg (by decide)]

/-- Witness for `ddsInit_attributeError`: concrete node fields on the
3-by-3 grid satisfy the contract, and construction yields the
`AttributeError`. -/
theorem ddsInit_attributeError_witness :
    fieldsSatisfyContract (mkFields z9 z9 z9 z9 z9 z9)
    ∧ ddsInitChecked g33 (mkFields z9 z9 z9 z9 z9 z9) {}
        = .error (.attributeError "build_link_between_nodes_array") :=
  ⟨by decide, ddsInit_attributeError g33 (mkFields z9 z9 z9 z9 z9 z9) {} (by decide)⟩

/-- C4 (amended): along every reachable trajectory, the boundary tags are
the ones computed once at construction from the base hydrostatic potential
`water_density * gravity * bed_elevation`; `run_one_step` never recomputes
them from the current hydraulic-potential field. -/
theorem boundaryTags_invariant (s : DDS) (hr : DDSReachable s) :
    s.boundaryTags
      = setInflowOutflow s.grid
          (basePotential s.grid s.params s.fields.bedElevation.value) := by
  induction hr with
  | init g fields params => rfl
  | step s solver rootFind dt hs ih => exact ih

/-- Witness for `boundaryTags_invariant` at the concrete initial state
`c4state`. -/
theorem boundaryTags_invariant_witness :
    c4state.boundaryTags
      = setInflowOutflow c4state.grid
          (basePotential c4state.grid c4state.params
            c4state.fields.bedElevation.value) :=
  boundaryTags_invariant c4state
    (DDSReachable.init g33 (mkFields z9 z9 z9 z9 #[0, 5, 0, 0, 0, 0, 0, 0, 0] z9) {})

/-- C4 counterexample: `c4state` is reachable (it is an initial state), its
stored hydraulic-potential field differs from the bed's hydrostatic
potential, and the tags it carries — the tags `run_one_step` would use — are
not `_set_inflow_outflow` of that current potential field: the tags carry
`-1` at node 1 while the current potential classifies node 1 as `1`. -/
theorem boundaryTags_not_recomputed_cex :
    DDSReachable c4state
    ∧ c4state.boundaryTags
        ≠ setInflowOutflow c4state.grid c4state.fields.hydraulicPotential.value :=
  ⟨DDSReachable.init g33 (mkFields z9 z9 z9 z9 #[0, 5, 0, 0, 0, 0, 0, 0, 0] z9) {},
    of_decide_eq_true (by with_unfolding_all rfl)⟩

/-- C3 counterexample: on `g33` with the potential field `phiC3`, boundary
node 1 (potential `5`) lies below its only interior neighbor's potential
(`10`) but above the boundary neighbor node 0 (potential `1`).  The claim's
rule — minimum over interior neighbors — classifies it as outflow (`-1`),
but the code takes the minimum over all adjacent nodes and classifies it as
inflow (`1`). -/
theorem setInflowOutflow_interior_min_mismatch :
    iget (setInflowOutflow g33 phiC3) 1 = 1
    ∧ iget (setInflowOutflowSpecClaim g33 phiC3) 1 = -1
    ∧ setInflowOutflow g33 phiC3 ≠ setInflowOutflowSpecClaim g33 phiC3 :=
  of_decide_eq_true (by with_unfolding_all rfl)

/-- C3 (amended): for a boundary node (positive status), the tag is `-1`
(outflow) exactly when the node's potential is less than or equal to the
potential of every valid adjacent node — interior *or* boundary — and `1`
(inflow) exactly when some valid adjacent node has a strictly smaller
potential; every non-boundary node receives flag `0`. -/
theorem setInflowOutflow_characterization (g : SGrid) (phi : Array Rat)
    (i : Nat) (hi : i < g.numberOfNodes) :
    (0 < iget g.statusAtNode i →
      (iget (setInflowOutflow g phi) i = -1
        ↔ ∀ j ∈ (rowI g.adjacentNodesAtNode i).toList,
            j ≠ -1 → qget phi i ≤ jget phi j)
      ∧ (iget (setInflowOutflow g phi) i = 1
        ↔ ∃ j ∈ (rowI g.adjacentNodesAtNode i).toList,
            j ≠ -1 ∧ jget phi j < qget phi i))
    ∧ (¬ 0 < iget g.statusAtNode i → iget (setInflowOutflow g phi) i = 0) := by
  have hentry : iget (setInflowOutflow g phi) i =
      (if leOpt (qget phi i)
          (minList
            (((rowI g.adjacentNodesAtNode i).toList.filter
              (fun j => j ≠ -1)).map (jget phi))) then
        -1 * (if iget g.statusAtNode i > 0 then 1 else 0)
      else 1 * (if iget g.statusAtNode i > 0 then 1 else 0)) := by
    unfold setInflowOutflow
    rw [iget_ofFn _ i hi]
  have hkey : leOpt (qget phi i)
      (minList
        (((rowI g.adjacentNodesAtNode i).toList.filter
          (fun j => j ≠ -1)).map (jget phi))) = true
      ↔ ∀ j ∈ (rowI g.adjacentNodesAtNode i).toList,
          j ≠ -1 → qget phi i ≤ jget phi j := by
    rw [leOpt_minList]
    constructor
    · intro h j hj hne
      exact h (jget phi j)
        (List.mem_map_of_mem _ (List.mem_filter.mpr ⟨hj, by simpa using hne⟩))
    · intro h y hy
      obtain ⟨j, hjf, rfl⟩ := List.mem_map.mp hy
      obtain ⟨hj, hne⟩ := List.mem_filter.mp hjf
      exact h j hj (by simpa using hne)
  constructor
  · intro hstat
    rw [hentry, if_pos hstat]
    by_cases hcond : leOpt (qget phi i)
        (minList
          (((rowI g.adjacentNodesAtNode i).toList.filter
            (fun j => j ≠ -1)).map (jget phi))) = true
    · rw [if_pos hcond]
      constructor
      · simp only [neg_mul, one_mul, true_iff]
        exact hkey.mp hcond
      · constructor
        · intro h
          omega
        · intro ⟨j, hj, hne, hlt⟩
          exact absurd (hkey.mp hcond j hj hne) (not_le.mpr hlt)
    · rw [if_neg hcond]
      have hnall : ¬ ∀ j ∈ (rowI g.adjacentNodesAtNode i).toList,
          j ≠ -1 → qget phi i ≤ jget phi j := fun h => hcond (hkey.mpr h)
      constructor
      · constructor
        · intro h
          omega
        · intro h
          exact absurd h hnall
      · simp only [one_mul, true_iff]
        push_neg at hnall
        obtain ⟨j, hj, hne, hlt⟩ := hnall
        exact ⟨j, hj, hne, hlt⟩
  · intro hstat
    rw [hentry]
    have : (if iget g.statusAtNode i > 0 then (1 : Int) else 0) = 0 :=
      if_neg hstat
    rw [this]
    simp

/-- Witness for `setInflowOutflow_characterization`: on `g33` with `phiC3`,
boundary node 1 is tagged inflow because its boundary neighbor node 0 has a
strictly smaller potential. -/
theorem setInflowOutflow_characterization_witness :
    iget (setInflowOutflow g33 phiC3) 1 = 1 :=
  (((setInflowOutflow_characterization g33 phiC3 1 (by decide)).1
      (by decide)).2).mpr
    ⟨0, by decide, by decide, of_decide_eq_true (by with_unfolding_all rfl)⟩

/-- The `-1`-padded adjacency row of the node that owns a given cell, as read
by `_assemble_row`. -/
def adjRowOfCell (dds : DDS) (cell : Nat) : Array Int :=
  rowI dds.grid.adjacentNodesAtNode
    (jidx dds.grid.adjacentNodesAtNode.size (iget dds.grid.nodeAtCell cell))

/-- C2 (amended): in `_assemble_row`, the fixed-value forcing treatment —
adding `-coeff * base_potential[j]` to the cell's forcing entry — is applied
exactly to the adjacent nodes tagged `-1` (classified outflow); adjacent
nodes tagged `1` (classified inflow) contribute nothing to the forcing. -/
theorem assembleRow_forcing_outflow_only (dds : DDS) (phi sheet : Array Rat)
    (cell : Nat) :
    (assembleRow dds phi sheet cell).1 =
      ∑ s ∈ (Finset.range (adjRowOfCell dds cell).size).filter
          (fun s =>
            jgetI dds.boundaryTags (iget (adjRowOfCell dds cell) s) = -1
            ∧ iget (adjRowOfCell dds cell) s ≠ -1),
        -(getCoeffsAtLink dds cell (iget (adjRowOfCell dds cell) s) phi sheet)
          * jget (basePotential dds.grid dds.params dds.fields.bedElevation.value)
              (iget (adjRowOfCell dds cell) s) := by
  have h0 : (assembleRow dds phi sheet cell).1
      = arrSum (Array.ofFn (n := (adjRowOfCell dds cell).size) fun s =>
          if jgetI dds.boundaryTags (iget (adjRowOfCell dds cell) s) = -1
              ∧ iget (adjRowOfCell dds cell) s ≠ -1 then
            -(qget (Array.ofFn (n := (adjRowOfCell dds cell).size) fun t =>
                if iget (adjRowOfCell dds cell) t ≠ -1 then
                  getCoeffsAtLink dds cell (iget (adjRowOfCell dds cell) t)
                    phi sheet
                else 0) s)
              * jget
                  (basePotential dds.grid dds.params
                    dds.fields.bedElevation.value)
                  (iget (adjRowOfCell dds cell) s)
          else 0) := rfl
  rw [h0, arrSum_ofFn,
    Fin.sum_univ_eq_sum_range
      (fun s =>
        if jgetI dds.boundaryTags (iget (adjRowOfCell dds cell) s) = -1
            ∧ iget (adjRowOfCell dds cell) s ≠ -1 then
          -(qget (Array.ofFn (n := (adjRowOfCell dds cell).size) fun t =>
              if iget (adjRowOfCell dds cell) t ≠ -1 then
                getCoeffsAtLink dds cell (iget (adjRowOfCell dds cell) t)
                  phi sheet
              else 0) s)
            * jget
                (basePotential dds.grid dds.params
                  dds.fields.bedElevation.value)
                (iget (adjRowOfCell dds cell) s)
        else 0)
      (adjRowOfCell dds cell).size,
    Finset.sum_filter]
  refine Finset.sum_congr rfl ?_
  intro s hs
  have hslt : s < (adjRowOfCell dds cell).size := Finset.mem_range.mp hs
  by_cases hcond : jgetI dds.boundaryTags (iget (adjRowOfCell dds cell) s) = -1
      ∧ iget (adjRowOfCell dds cell) s ≠ -1
  · rw [if_pos hcond, if_pos hcond, qget_ofFn _ s hslt, if_pos hcond.2]
  · rw [if_neg hcond, if_neg hcond]

set_option maxRecDepth 2000 in
/-- C2 counterexample: at the single cell of `c2state`, the adjacent node 3
is classified inflow (tag `1`) and node 1 outflow (tag `-1`); the code's
forcing (`-2943`) collects the Dirichlet terms of the outflow-tagged
neighbors 1, 5, 7, while the claim's rule — Dirichlet terms from the
inflow-classified neighbors — would give `2943/2` from node 3. -/
theorem assembleRow_forcing_spec_mismatch :
    iget c2state.boundaryTags 3 = 1
    ∧ iget c2state.boundaryTags 1 = -1
    ∧ (assembleRow c2state phiC2 ones9 0).1 = -2943
    ∧ assembleRowForcingSpecClaim c2state phiC2 ones9 0 = 2943 / 2
    ∧ (assembleRow c2state phiC2 ones9 0).1
        ≠ assembleRowForcingSpecClaim c2state phiC2 ones9 0 :=
  have h3 : (assembleRow c2state phiC2 ones9 0).1 = -2943 := by
    with_unfolding_all rfl
  have h4 : assembleRowForcingSpecClaim c2state phiC2 ones9 0 = 2943 / 2 := by
    with_unfolding_all rfl
  ⟨by with_unfolding_all rfl, by with_unfolding_all rfl, h3, h4,
    fun h => by rw [h3, h4] at h; norm_num at h⟩

/-- C8 (amended): at every node with nonzero cell area, the discrete
divergence is the *negated* signed sum — with the signs of the stored (into-
the-node-positive) link directions — of `flux * face_length` over the node's
valid incident links, divided by the cell area; at every node with zero cell
area the result is exactly zero. -/
theorem calcFluxDiv_characterization (g : SGrid) (a : Array Rat) (i : Nat)
    (hi : i < g.numberOfNodes) :
    (qget g.cellAreaAtNode i ≠ 0 →
      qget (calcFluxDivAtNode g a) i =
        -(∑ s ∈ (Finset.range (rowI g.linksAtNode i).size).filter
              (fun s => iget (rowI g.linksAtNode i) s ≠ -1),
            (iget (rowI g.linkDirsAtNode i) s : Rat)
              * jget (faceFluxArr g a) (iget (rowI g.linksAtNode i) s))
          / qget g.cellAreaAtNode i)
    ∧ (qget g.cellAreaAtNode i = 0 → qget (calcFluxDivAtNode g a) i = 0) := by
  have h1 : qget (sumAtNodes g (faceFluxArr g a)) i
      = arrSum (Array.ofFn (n := (rowI g.linksAtNode i).size) fun s =>
          if iget (rowI g.linksAtNode i) s ≠ -1 then
            (iget (rowI g.linkDirsAtNode i) s : Rat)
              * jget (faceFluxArr g a) (iget (rowI g.linksAtNode i) s)
          else 0) := by
    unfold sumAtNodes
    rw [qget_ofFn _ i hi]
  have hsum : qget (sumAtNodes g (faceFluxArr g a)) i
      = ∑ s ∈ (Finset.range (rowI g.linksAtNode i).size).filter
            (fun s => iget (rowI g.linksAtNode i) s ≠ -1),
          (iget (rowI g.linkDirsAtNode i) s : Rat)
            * jget (faceFluxArr g a) (iget (rowI g.linksAtNode i) s) := by
    rw [h1, arrSum_ofFn,
      Fin.sum_univ_eq_sum_range
        (fun s =>
          if iget (rowI g.linksAtNode i) s ≠ -1 then
            (iget (rowI g.linkDirsAtNode i) s : Rat)
              * jget (faceFluxArr g a) (iget (rowI g.linksAtNode i) s)
          else 0)
        (rowI g.linksAtNode i).size,
      Finset.sum_filter]
  have hdiv : qget (calcFluxDivAtNode g a) i
      = if qget g.cellAreaAtNode i ≠ 0 then
          -(qget (sumAtNodes g (faceFluxArr g a)) i) / qget g.cellAreaAtNode i
        else 0 := by
    unfold calcFluxDivAtNode
    rw [qget_ofFn _ i hi]
  constructor
  · intro h
    rw [hdiv, if_pos h, hsum]
  · intro h
    rw [hdiv, if_neg (by simpa using h)]

/-- Witness for `calcFluxDiv_characterization` at the interior node of
`g33` with the flux `fluxC8`: the negated signed sum is `-1`. -/
theorem calcFluxDiv_characterization_witness :
    qget (calcFluxDivAtNode g33 fluxC8) 4 =
      -(∑ s ∈ (Finset.range (rowI g33.linksAtNode 4).size).filter
            (fun s => iget (rowI g33.linksAtNode 4) s ≠ -1),
          (iget (rowI g33.linkDirsAtNode 4) s : Rat)
            * jget (faceFluxArr g33 fluxC8) (iget (rowI g33.linksAtNode 4) s))
        / qget g33.cellAreaAtNode 4 :=
  (calcFluxDiv_characterization g33 fluxC8 4 (by decide)).1
    (of_decide_eq_true (by with_unfolding_all rfl))

/-- C8 counterexample: with a unit flux on link 3 of `g33` only, the code
returns `-1` at the interior node — the *negation* of the stored-sign signed
sum divided by the cell area — while the claim's formula (the signed sum with
the stored direction signs, no negation) gives `+1`. -/
theorem calcFluxDiv_sign_mismatch :
    qget (calcFluxDivAtNode g33 fluxC8) 4 = -1
    ∧ qget (calcFluxDivAtNodeSpecClaim g33 fluxC8) 4 = 1
    ∧ calcFluxDivAtNode g33 fluxC8 ≠ calcFluxDivAtNodeSpecClaim g33 fluxC8 :=
  of_decide_eq_true (by with_unfolding_all rfl)

/-- C6 (amended): the thickness returned by `_update_sheet_flow_height` is
the raw root-find solution at interior (tag `0`) nodes — so where the
root-find converges to an exact root it satisfies the implicit equation
`h_new = h_old + dt * dhdt(phi_old, h_new)` — with *no* non-negativity
clamp, and it is set to `0` at every boundary node, whether that node is
classified no-flux (outflow, `-1`) or fixed-value (inflow, `1`). -/
theorem updateSheetFlowHeight_characterization (dds : DDS) (dt : Rat)
    (phi hOld sol : Array Rat) (i : Nat) (hi : i < dds.grid.numberOfNodes) :
    (iget dds.boundaryTags i = 0 →
      qget (updateSheetFlowHeight dds sol) i = qget sol i)
    ∧ (iget dds.boundaryTags i ≠ 0 →
        qget (updateSheetFlowHeight dds sol) i = 0)
    ∧ (iget dds.boundaryTags i = 0 →
        qget (ddsResidual dds dt phi hOld sol) i = 0 →
        qget (updateSheetFlowHeight dds sol) i
          = qget hOld i + dt * qget (calcDhdt dds phi sol) i) := by
  have hup : qget (updateSheetFlowHeight dds sol) i
      = if iget dds.boundaryTags i = 0 then qget sol i else 0 := by
    unfold updateSheetFlowHeight
    rw [qget_ofFn _ i hi]
  have hres : qget (ddsResidual dds dt phi hOld sol) i
      = qget sol i - qget hOld i - dt * qget (calcDhdt dds phi sol) i := by
    unfold ddsResidual
    rw [qget_ofFn _ i hi]
  refine ⟨fun h => by rw [hup, if_pos h], fun h => by rw [hup, if_neg h],
    fun h hr => ?_⟩
  rw [hres] at hr
  rw [hup, if_pos h]
  linarith

/-- Witness for `updateSheetFlowHeight_characterization`: at the interior
node 4 of `c6state` the residual of `solC6` vanishes, so the returned
thickness satisfies the implicit per-node equation there. -/
theorem updateSheetFlowHeight_characterization_witness :
    qget (updateSheetFlowHeight c6state solC6) 4
      = qget ones9 4
        + 1 * qget (calcDhdt c6state #[0, 0, 0, 0, 10 ^ 9, 0, 0, 0, 0] solC6) 4 :=
  (updateSheetFlowHeight_characterization c6state 1
      #[0, 0, 0, 0, 10 ^ 9, 0, 0, 0, 0] ones9 solC6 4 (by decide)).2.2
    (by with_unfolding_all rfl) (by with_unfolding_all rfl)

/-- C6 counterexample: on `c6state` (`dt = 1`), `solC6` solves the implicit
per-node equation exactly (the residual closure of
`_update_sheet_flow_height` vanishes on it), node 4 is interior, and yet the
returned thickness at node 4 is `-9/1591 < 0`: the result is not clamped to
be non-negative at interior nodes. -/
theorem updateSheetFlowHeight_negative_cex :
    ddsResidual c6state 1 #[0, 0, 0, 0, 10 ^ 9, 0, 0, 0, 0] ones9 solC6
      = Array.mkArray 9 0
    ∧ iget c6state.boundaryTags 4 = 0
    ∧ qget (updateSheetFlowHeight c6state solC6) 4 = -9 / 1591
    ∧ qget (updateSheetFlowHeight c6state solC6) 4 < 0 :=
  ⟨by with_unfolding_all rfl, by with_unfolding_all rfl,
    by with_unfolding_all rfl, of_decide_eq_true (by with_unfolding_all rfl)⟩

/-- The assembler on the 3-by-4 grid used to witness the per-link cases:
distinct prime coefficients on the seven faces, boundary value `2`
everywhere, and node 1 flagged fixed-value. -/
def m34 : MAssembler :=
  { grid := g34
    coeffs := #[2, 3, 5, 7, 11, 13, 17]
    forcing := #[0, 0]
    boundaryValues := Array.mkArray 12 2
    isFixedValue := #[0, 1, 0, 0, 0, 0, 0, 0, 0, 0, 0, 0] }

/-- C5: the per-link processing of `MatrixAssembler.assemble_matrix`.  A `-1`
padding slot is skipped.  A link to an interior neighbor (status `0`) with
cell `cAdj` leaves the forcing unchanged, adds `-coeff` to the row's own-cell
entry and `+coeff` to the neighbor-cell entry, and touches nothing else.  A
link to a fixed-value-flagged boundary neighbor adds `-coeff` to the own-cell
row entry and `-coeff * boundary_value[j]` to the own-cell forcing entry, and
touches nothing else.  A link to an unflagged boundary neighbor contributes
nothing at all.  (`assemble_row` folds exactly this step over the node's
incident links, and `assemble_matrix` scans `assemble_row` over the cells.) -/
theorem maAssembler_link_cases (m : MAssembler) (cell : Nat) (link : Int)
    (forcing row : Array Rat)
    (hrow : row.size = m.grid.numberOfCells)
    (hforc : forcing.size = m.grid.numberOfCells)
    (hcell : cell < m.grid.numberOfCells) :
    (assembleRowStep m cell (forcing, row) (-1) = (forcing, row))
    ∧ (∀ cAdj : Nat,
        jgetI m.grid.statusAtNode (getAdjacentNode m cell link) = 0 →
        jgetI m.grid.cellAtNode (getAdjacentNode m cell link) = (cAdj : Int) →
        cAdj < m.grid.numberOfCells → cAdj ≠ cell →
        (addValid m cell link forcing row).1 = forcing
        ∧ qget (addValid m cell link forcing row).2 cell
            = qget row cell - jget m.coeffs (jgetI m.grid.faceAtLink link)
        ∧ qget (addValid m cell link forcing row).2 cAdj
            = qget row cAdj + jget m.coeffs (jgetI m.grid.faceAtLink link)
        ∧ ∀ k : Nat, k ≠ cell → k ≠ cAdj →
            qget (addValid m cell link forcing row).2 k = qget row k)
    ∧ (jgetI m.grid.statusAtNode (getAdjacentNode m cell link) ≠ 0 →
        jgetI m.isFixedValue (getAdjacentNode m cell link) = 1 →
        qget (addValid m cell link forcing row).1 cell
            = qget forcing cell
              - jget m.coeffs (jgetI m.grid.faceAtLink link)
                * jget m.boundaryValues (getAdjacentNode m cell link)
        ∧ (∀ k : Nat, k ≠ cell →
            qget (addValid m cell link forcing row).1 k = qget forcing k)
        ∧ qget (addValid m cell link forcing row).2 cell
            = qget row cell - jget m.coeffs (jgetI m.grid.faceAtLink link)
        ∧ ∀ k : Nat, k ≠ cell →
            qget (addValid m cell link forcing row).2 k = qget row k)
    ∧ (jgetI m.grid.statusAtNode (getAdjacentNode m cell link) ≠ 0 →
        jgetI m.isFixedValue (getAdjacentNode m cell link) ≠ 1 →
        addValid m cell link forcing row = (forcing, row)) := by
  set c : Rat := jget m.coeffs (jgetI m.grid.faceAtLink link) with hcdef
  have hrow0 : row.size ≠ 0 := by omega
  have hforc0 : forcing.size ≠ 0 := by omega
  have hjc : jidx row.size (cell : Int) = cell := jidx_coe _ _ (by omega)
  have hjcf : jidx forcing.size (cell : Int) = cell := jidx_coe _ _ (by omega)
  refine ⟨by simp [assembleRowStep], ?_, ?_, ?_⟩
  · intro cAdj hstat hadj hlt hne
    have hja : jidx row.size (cAdj : Int) = cAdj := jidx_coe _ _ (by omega)
    have hva : addValid m cell link forcing row
        = (forcing,
            arrAddAt (arrAddAt row (cell : Int) (-c))
              (jgetI m.grid.cellAtNode (getAdjacentNode m cell link)) c) := by
      unfold addValid addInterior
      rw [if_pos hstat]
    rw [hadj] at hva
    refine ⟨by rw [hva], ?_, ?_, ?_⟩
    · rw [hva]
      show qget (arrAddAt (arrAddAt row (cell : Int) (-c)) (cAdj : Int) c) cell
          = qget row cell - c
      rw [qget_arrAddAt, size_arrAddAt, hja, if_neg (fun hc => hne hc.2),
        qget_arrAddAt, hjc, if_pos ⟨hrow0, rfl⟩]
      ring
    · rw [hva]
      show qget (arrAddAt (arrAddAt row (cell : Int) (-c)) (cAdj : Int) c) cAdj
          = qget row cAdj + c
      rw [qget_arrAddAt, size_arrAddAt, hja, if_pos ⟨hrow0, rfl⟩,
        qget_arrAddAt, hjc, if_neg (fun hc => hne hc.2.symm)]
    · intro k hk1 hk2
      rw [hva]
      show qget (arrAddAt (arrAddAt row (cell : Int) (-c)) (cAdj : Int) c) k
          = qget row k
      rw [qget_arrAddAt, size_arrAddAt, hja, if_neg (fun hc => hk2 hc.2.symm),
        qget_arrAddAt, hjc, if_neg (fun hc => hk1 hc.2.symm)]
  · intro hstat hfix
    have hvd : addValid m cell link forcing row
        = (arrAddAt forcing (cell : Int)
            (-c * jget m.boundaryValues (getAdjacentNode m cell link)),
          arrAddAt row (cell : Int) (-c)) := by
      unfold addValid addDirichlet
      rw [if_neg hstat, if_pos hfix]
    refine ⟨?_, ?_, ?_, ?_⟩
    · rw [hvd]
      show qget (arrAddAt forcing (cell : Int)
          (-c * jget m.boundaryValues (getAdjacentNode m cell link))) cell
          = qget forcing cell
            - c * jget m.boundaryValues (getAdjacentNode m cell link)
      rw [qget_arrAddAt, hjcf, if_pos ⟨hforc0, rfl⟩]
      ring
    · intro k hk
      rw [hvd]
      show qget (arrAddAt forcing (cell : Int)
          (-c * jget m.boundaryValues (getAdjacentNode m cell link))) k
          = qget forcing k
      rw [qget_arrAddAt, hjcf, if_neg (fun hc => hk hc.2.symm)]
    · rw [hvd]
      show qget (arrAddAt row (cell : Int) (-c)) cell = qget row cell - c
      rw [qget_arrAddAt, hjc, if_pos ⟨hrow0, rfl⟩]
      ring
    · intro k hk
      rw [hvd]
      show qget (arrAddAt row (cell : Int) (-c)) k = qget row k
      rw [qget_arrAddAt, hjc, if_neg (fun hc => hk hc.2.symm)]
  · intro hstat hfix
    unfold addValid
    rw [if_neg hstat, if_neg hfix]

/-- Witness for `maAssembler_link_cases` on `m34` at cell 0 (node 5):
link 8 reaches the interior neighbor node 6 (cell 1, coefficient `7`),
link 4 reaches the fixed-value node 1 (coefficient `2`, boundary value `2`),
and link 7 reaches the unflagged boundary node 4. -/
theorem maAssembler_link_cases_witness :
    qget (addValid m34 0 8 #[0, 0] #[0, 0]).2 0 = -7
    ∧ qget (addValid m34 0 8 #[0, 0] #[0, 0]).2 1 = 7
    ∧ qget (addValid m34 0 4 #[0, 0] #[0, 0]).1 0 = -4
    ∧ addValid m34 0 7 #[0, 0] #[0, 0] = (#[0, 0], #[0, 0]) := by
  have hI := (maAssembler_link_cases m34 0 8 #[0, 0] #[0, 0] (by decide)
    (by decide) (by decide)).2.1 1 (by decide) (by decide) (by decide)
    (by decide)
  have hD := (maAssembler_link_cases m34 0 4 #[0, 0] #[0, 0] (by decide)
    (by decide) (by decide)).2.2.1 (by decide) (by decide)
  have hE := (maAssembler_link_cases m34 0 7 #[0, 0] #[0, 0] (by decide)
    (by decide) (by decide)).2.2.2 (by decide) (by decide)
  refine ⟨?_, ?_, ?_, hE⟩
  · rw [hI.2.1]
    with_unfolding_all rfl
  · rw [hI.2.2.1]
    with_unfolding_all rfl
  · rw [hD.1]
    with_unfolding_all rfl
